import Mathlib

/-!
Shallow embedding of the zod-sqlite table compiler (src/core/table.ts,
src/core/column-definitions.ts, src/core/primary-key-constraint.ts,
src/core/index-statements.ts, src/core/zod-schema.ts,
src/utils/zod-to-sqlite.ts, src/utils/map-zod-type-to-sqlite.ts,
src/utils/format-default-value.ts, src/utils/format-check-constraint.ts).

JavaScript strings are Lean `String`s; JS `undefined` is `Option.none`;
JS objects/arrays are structures and lists.  Scalar values that can occur
as zod default values or literal payloads are modelled by `JSValue`
(strings, integers, booleans, null); JS numbers are modelled as integers,
which covers every value the repository's documentation and tests exercise.
-/

namespace ZodSqlite

/-- A JavaScript scalar value (as it occurs in defaults and literals). -/
inductive JSValue where
  | str (s : String)
  | num (n : Int)
  | bool (b : Bool)
  | vnull
deriving DecidableEq, Repr

/-- JS `String(value)` / template-literal conversion for primitives. -/
def jsString : JSValue → String
  | .str s => s
  | .num n => toString n
  | .bool b => if b then "true" else "false"
  | .vnull => "null"

/-- The single-quote character, `'`. -/
def squote : Char := Char.ofNat 39

/-- JS `Number(string)` on integer-literal strings: `""` is 0, an optional
minus sign followed by digits parses, anything else is NaN (`none`). -/
def jsStringToNumber (s : String) : Option Int :=
  let digitsVal (cs : List Char) : Option Nat :=
    if cs.isEmpty then none
    else cs.foldl (fun acc c =>
      match acc with
      | none => none
      | some n => if c.isDigit then some (n * 10 + (c.toNat - 48)) else none)
      (some 0)
  match s.data with
  | [] => some 0
  | c :: rest =>
    if c = '-' then (digitsVal rest).map (fun n => -(n : Int))
    else (digitsVal (c :: rest)).map (fun n => (n : Int))

/-- The string JS prints for `Number(value)` interpolated into a template. -/
def jsNumberString : JSValue → String
  | .num n => toString n
  | .bool b => if b then "1" else "0"
  | .vnull => "0"
  | .str s =>
    match jsStringToNumber s with
    | some n => toString n
    | none => "NaN"

/-- JS `s.replace(/'/g, "''")`: double every single quote. -/
def escapeSQuotes (s : String) : String :=
  ⟨s.data.foldr (fun c acc => if c = squote then squote :: squote :: acc else c :: acc) []⟩

/-- JS `Array.prototype.join(sep)`. -/
def joinSep (sep : String) : List String → String
  | [] => ""
  | [s] => s
  | s :: rest => s ++ sep ++ joinSep sep rest

/-- SQLite column type strings from src/types.ts (`SQLiteType` and
`SQLiteSupportType` merged, as the code passes their union around). -/
inductive SQLiteType where
  | TEXT | INTEGER | REAL | BLOB | NULL
  | BOOLEAN | BIGINT | DATE | DATETIME | NUMERIC | FLOAT
deriving DecidableEq, Repr

/-- The TS value of a `SQLiteType` is the literal string itself. -/
def SQLiteType.toSQL : SQLiteType → String
  | .TEXT => "TEXT"
  | .INTEGER => "INTEGER"
  | .REAL => "REAL"
  | .BLOB => "BLOB"
  | .NULL => "NULL"
  | .BOOLEAN => "BOOLEAN"
  | .BIGINT => "BIGINT"
  | .DATE => "DATE"
  | .DATETIME => "DATETIME"
  | .NUMERIC => "NUMERIC"
  | .FLOAT => "FLOAT"

/-- Zod string formats the mapper distinguishes (`_zod.def.format`). -/
inductive StringFormat where
  | date | datetime | duration | otherFormat (tag : String)
deriving DecidableEq, Repr

/-- Zod number formats the mapper distinguishes (`_zod.def.format`). -/
inductive NumberFormat where
  | safeint | uint32 | int32 | float32 | float64
deriving DecidableEq, Repr

/-- A zod check attached to a number or string schema.  `greater_than` and
`less_than` carry zod's `inclusive` flag (`.gte`/`.min` set it true, `.gt`
sets it false, and dually for `lte`/`lt`). -/
inductive ZodCheck where
  | greater_than (value : Int) (inclusive : Bool)
  | less_than (value : Int) (inclusive : Bool)
  | min_length (minimum : Nat)
  | max_length (maximum : Nat)
  | length_equals (length : Nat)
  | otherCheck (tag : String)
deriving DecidableEq, Repr

/-- The `defaultValue` slot of a zod `default` wrapper: either a concrete
value or a zero-argument producer function; `none` models JS `undefined`. -/
inductive DefaultPayload where
  | value (v : Option JSValue)
  | producer (f : Unit → Option JSValue)

/-- Reading the payload the way `zodToSQLite` does:
`typeof defaultValue === 'function' ? defaultValue() : defaultValue`. -/
def DefaultPayload.eval : DefaultPayload → Option JSValue
  | .value v => v
  | .producer f => f ()

/-- A zod schema tree as the compiler observes it through `_zod.def`:
wrapper kinds (`optional`, `nullable`, `default`) and core kinds.
`custom` stands for any type tag the switches do not recognize. -/
inductive ZodType where
  | optional (innerType : ZodType)
  | nullable (innerType : ZodType)
  | default (innerType : ZodType) (defaultValue : DefaultPayload)
  | string (format : Option StringFormat) (checks : List ZodCheck)
  | number (format : Option NumberFormat) (checks : List ZodCheck)
  | enum (entries : List String)
  | literal (values : List JSValue)
  | union (options : List ZodType)
  | boolean
  | bigint
  | date
  | null
  | undefined
  | file
  | array
  | object
  | template_literal
  | custom (tag : String)

/-- A core (non-wrapper) kind: the unwrap loop stops here. -/
def ZodType.isLeaf : ZodType → Bool
  | .optional _ => false
  | .nullable _ => false
  | .default _ _ => false
  | _ => true

/-- src/utils/map-zod-type-to-sqlite.ts: map a core type tag (plus format)
to a SQLite type; unknown tags fall to TEXT. -/
def mapZodTypeToSQLite : ZodType → SQLiteType
  | .string fmt _ =>
    match fmt with
    | some .date => .DATE
    | some .datetime => .DATETIME
    | some .duration => .INTEGER
    | _ => .TEXT
  | .date => .DATE
  | .enum _ => .TEXT
  | .literal _ => .TEXT
  | .template_literal => .TEXT
  | .array => .TEXT
  | .object => .TEXT
  | .number fmt _ =>
    match fmt with
    | some .safeint => .INTEGER
    | some .uint32 => .INTEGER
    | some .int32 => .INTEGER
    | some .float32 => .FLOAT
    | some .float64 => .FLOAT
    | _ => .REAL
  | .boolean => .BOOLEAN
  | .bigint => .BIGINT
  | .null => .NULL
  | .undefined => .NULL
  | .file => .BLOB
  | _ => .TEXT

/-- The unwrap loop of src/utils/zod-to-sqlite.ts, with the mutable
`nullable` and `defaultValue` variables made explicit accumulators. -/
def unwrapZod : ZodType → Bool → Option JSValue → ZodType × Bool × Option JSValue
  | .optional inner, _, dv => unwrapZod inner true dv
  | .nullable inner, _, dv => unwrapZod inner true dv
  | .default inner payload, nb, _ => unwrapZod inner nb payload.eval
  | s, nb, dv => (s, nb, dv)

/-- Result record of `zodToSQLite` (the `schema` field, returned unchanged,
is omitted since callers pass the original schema along separately). -/
structure SQLiteMeta where
  SQLiteType : SQLiteType
  nullable : Bool
  defaultValue : Option JSValue
deriving Repr

/-- src/utils/zod-to-sqlite.ts `zodToSQLite`. -/
def zodToSQLite (schema : ZodType) : SQLiteMeta :=
  let r := unwrapZod schema false none
  { SQLiteType := mapZodTypeToSQLite r.1, nullable := r.2.1, defaultValue := r.2.2 }

/-- Number of producer invocations the unwrap loop performs: the loop calls
`definition.defaultValue()` once per `default` layer whose payload is a
function, and never elsewhere. -/
def unwrapZodInvoked : ZodType → Nat
  | .optional inner => unwrapZodInvoked inner
  | .nullable inner => unwrapZodInvoked inner
  | .default inner p =>
    (match p with | .producer _ => 1 | .value _ => 0) + unwrapZodInvoked inner
  | _ => 0

/-- `'` ++ escaped string ++ `'`, the quoting used for enum/literal values. -/
def quoteEscape (s : String) : String :=
  "'" ++ escapeSQuotes s ++ "'"

/-- Rendering of one literal/union value in an IN-list: strings are quoted
and escaped, everything else is `String(value)`. -/
def literalValueSQL : JSValue → String
  | .str s => quoteEscape s
  | v => jsString v

/-- The wrapper-stripping loop at the top of `formatCheckConstraint`
(src/utils/format-check-constraint.ts). -/
def stripWrappers : ZodType → ZodType
  | .optional inner => stripWrappers inner
  | .nullable inner => stripWrappers inner
  | .default inner _ => stripWrappers inner
  | s => s

/-- src/utils/format-check-constraint.ts `formatCheckConstraint`:
render a CHECK clause for enums, literals, all-literal unions, and
number/string bound checks; `none` is the JS `null` result. -/
def formatCheckConstraint (name : String) (schema : ZodType) : Option String :=
  match stripWrappers schema with
  | .enum entries =>
    some ("CHECK(" ++ name ++ " IN (" ++ joinSep ", " (entries.map quoteEscape) ++ "))")
  | .literal values =>
    match values with
    | [JSValue.str s] => some ("CHECK(" ++ name ++ " = " ++ quoteEscape s ++ ")")
    | [v] => some ("CHECK(" ++ name ++ " = " ++ jsString v ++ ")")
    | vs => some ("CHECK(" ++ name ++ " IN (" ++ joinSep ", " (vs.map literalValueSQL) ++ "))")
  | .union options =>
    if options.all (fun o => match o with | .literal _ => true | _ => false) then
      let values := (options.map (fun o => match o with | .literal vs => vs | _ => [])).flatten
      some ("CHECK(" ++ name ++ " IN (" ++ joinSep ", " (values.map literalValueSQL) ++ "))")
    else
      none
  | .number _ checks =>
    let constraints := checks.foldl (fun acc c =>
      match c with
      | .greater_than v _ => acc ++ [name ++ " >= " ++ toString v]
      | .less_than v _ => acc ++ [name ++ " <= " ++ toString v]
      | _ => acc) []
    if constraints.length > 0 then
      some ("CHECK(" ++ joinSep " AND " constraints ++ ")")
    else none
  | .string _ checks =>
    let constraints := checks.foldl (fun acc c =>
      match c with
      | .min_length m => acc ++ ["length(" ++ name ++ ") >= " ++ toString m]
      | .max_length m => acc ++ ["length(" ++ name ++ ") <= " ++ toString m]
      | .length_equals l => acc ++ ["length(" ++ name ++ ") = " ++ toString l]
      | _ => acc) []
    if constraints.length > 0 then
      some ("CHECK(" ++ joinSep " AND " constraints ++ ")")
    else none
  | _ => none

/-- src/utils/format-default-value.ts `formatDefaultValue`.  Note the switch
covers only TEXT, INTEGER, REAL and NULL; every other SQLite type (BOOLEAN,
BIGINT, DATE, DATETIME, NUMERIC, FLOAT, BLOB) takes the fallback arm, which
interpolates the raw value between single quotes without escaping. -/
def formatDefaultValue (value : JSValue) (t : SQLiteType) : String :=
  match t with
  | .TEXT => "DEFAULT '" ++ escapeSQuotes (jsString value) ++ "'"
  | .INTEGER => "DEFAULT " ++ jsNumberString value
  | .REAL => "DEFAULT " ++ jsNumberString value
  | .NULL => "DEFAULT NULL"
  | _ => "DEFAULT '" ++ jsString value ++ "'"

/-- Foreign key actions (src/types.ts `ForeignKeyAction`). -/
inductive ForeignKeyAction where
  | NO_ACTION | RESTRICT | SET_NULL | SET_DEFAULT | CASCADE
deriving DecidableEq, Repr

/-- The TS value of a `ForeignKeyAction` is the corresponding string. -/
def ForeignKeyAction.toSQL : ForeignKeyAction → String
  | .NO_ACTION => "NO ACTION"
  | .RESTRICT => "RESTRICT"
  | .SET_NULL => "SET NULL"
  | .SET_DEFAULT => "SET DEFAULT"
  | .CASCADE => "CASCADE"

/-- src/types.ts `ForeignKeyReference`. -/
structure ForeignKeyReference where
  table : String
  column : String
  onDelete : Option ForeignKeyAction
  onUpdate : Option ForeignKeyAction
deriving DecidableEq, Repr

/-- src/types.ts `ColumnConfig` (the optional `unique` flag collapses to a
Bool, matching its truthiness test in the code). -/
structure ColumnConfig where
  name : String
  schema : ZodType
  unique : Bool
  references : Option ForeignKeyReference

/-- src/types.ts `IndexConfig`; `whereCond` models the optional `where`
field (`where` is a Lean keyword). -/
structure IndexConfig where
  name : String
  columns : List String
  unique : Bool
  whereCond : Option String
deriving DecidableEq, Repr

/-- src/types.ts `TableConfig`; `indexes` is optional in TS. -/
structure TableConfig where
  name : String
  columns : List ColumnConfig
  primaryKeys : List String
  indexes : Option (List IndexConfig)

/-- src/core/column-definitions.ts `buildColumnDefinition`: the source
seeds `parts` with `[name, SQLiteType]` and pushes constraint clauses onto
the end; here the pushed tail is accumulated and prepended. -/
def buildColumnDefinition (column : ColumnConfig) : String :=
  let meta := zodToSQLite column.schema
  let parts : List String := []
  let parts := if !meta.nullable then parts ++ ["NOT NULL"] else parts
  let parts := match meta.defaultValue with
    | some v => parts ++ [formatDefaultValue v meta.SQLiteType]
    | none => parts
  let parts := if column.unique then parts ++ ["UNIQUE"] else parts
  let parts := match formatCheckConstraint column.name column.schema with
    | some c => parts ++ [c]
    | none => parts
  let parts := match column.references with
    | some r =>
      let parts := parts ++ ["REFERENCES " ++ r.table ++ "(" ++ r.column ++ ")"]
      let parts := match r.onDelete with
        | some a => parts ++ ["ON DELETE " ++ a.toSQL]
        | none => parts
      match r.onUpdate with
      | some a => parts ++ ["ON UPDATE " ++ a.toSQL]
      | none => parts
    | none => parts
  joinSep " " (column.name :: meta.SQLiteType.toSQL :: parts)

/-- src/core/primary-key-constraint.ts `buildPrimaryKeyConstraint`. -/
def buildPrimaryKeyConstraint (primaryKeys : List String) : String :=
  if primaryKeys.length = 0 then ""
  else "PRIMARY KEY (" ++ joinSep ", " primaryKeys ++ ")"

/-- src/core/index-statements.ts `buildIndexStatements`.  The `index.where`
truthiness test means an empty-string predicate produces no WHERE clause. -/
def buildIndexStatements (tableName : String) (indexes : Option (List IndexConfig)) : List String :=
  match indexes with
  | none => []
  | some idxs =>
    if idxs.length = 0 then []
    else idxs.map (fun index =>
      let uniqueClause := if index.unique then "UNIQUE " else ""
      let whereClause := match index.whereCond with
        | some w => if w = "" then "" else " WHERE " ++ w
        | none => ""
      "CREATE " ++ uniqueClause ++ "INDEX " ++ index.name ++ " ON " ++ tableName
        ++ " (" ++ joinSep ", " index.columns ++ ")" ++ whereClause ++ ";")

/-- JS object-key write `shape[k] = v`: an existing key keeps its position
but gets the new value; a new key is appended. -/
def recordSet (shape : List (String × ZodType)) (k : String) (v : ZodType) :
    List (String × ZodType) :=
  if shape.any (fun p => p.1 == k) then
    shape.map (fun p => if p.1 == k then (k, v) else p)
  else shape ++ [(k, v)]

/-- JS object-key read `shape[k]`. -/
def recordGet (shape : List (String × ZodType)) (k : String) : Option ZodType :=
  (shape.find? (fun p => p.1 == k)).map (fun p => p.2)

/-- src/core/zod-schema.ts `buildZodSchema`: the `z.object` shape, as the
record of column name to schema built by the loop (later occurrences of a
name overwrite earlier ones). -/
def buildZodSchema (columns : List ColumnConfig) : List (String × ZodType) :=
  columns.foldl (fun shape column => recordSet shape column.name column.schema) []

/-- The record returned by `createTable`. -/
structure TableResult where
  table : String
  indexes : List String
  schema : List (String × ZodType)

/-- src/core/table.ts `createTable`. -/
def createTable (config : TableConfig) : TableResult :=
  let columnDefs := config.columns.map buildColumnDefinition
  let primaryKeyConstraint := buildPrimaryKeyConstraint config.primaryKeys
  let tableElements := (columnDefs ++ [primaryKeyConstraint]).filter (fun s => s != "")
  let createTableSQL :=
    "CREATE TABLE " ++ config.name ++ " (\n  " ++ joinSep ",\n  " tableElements ++ "\n);"
  { table := createTableSQL
    indexes := buildIndexStatements config.name config.indexes
    schema := buildZodSchema config.columns }

/-! ### Wrapper stacks

A rule tree with `N` stacked wrapper layers around a leaf, used to state
the Rule Unwrapper claims: `wrapZod ws leaf` applies the wrappers in `ws`
outermost-first. -/

/-- One wrapper layer. -/
inductive Wrapper where
  | optional
  | nullable
  | withDefault (payload : DefaultPayload)

/-- Whether a layer is one of the two nullability-inducing wrappers. -/
def Wrapper.isNullableLayer : Wrapper → Bool
  | .optional => true
  | .nullable => true
  | .withDefault _ => false

/-- The default payload a layer carries, if any. -/
def Wrapper.payloadOf : Wrapper → Option DefaultPayload
  | .withDefault p => some p
  | _ => none

/-- Apply a stack of wrappers (outermost first) around a schema. -/
def wrapZod : List Wrapper → ZodType → ZodType
  | [], leaf => leaf
  | .optional :: ws, leaf => .optional (wrapZod ws leaf)
  | .nullable :: ws, leaf => .nullable (wrapZod ws leaf)
  | .withDefault p :: ws, leaf => .default (wrapZod ws leaf) p

/-- The payload of the innermost `withDefault` layer of a stack, i.e. the
most recently encountered one during an outside-in peel. -/
def lastDefaultPayload (ws : List Wrapper) : Option DefaultPayload :=
  (ws.filterMap Wrapper.payloadOf).getLast?

/-- Number of `withDefault` layers whose payload is a producer function. -/
def producerCount (ws : List Wrapper) : Nat :=
  ws.countP (fun w => match w with | .withDefault (.producer _) => true | _ => false)

/-! ### Spec-side renderings

Definitions written from the specification's words, to be compared with
the source-translated functions above. -/

/-- Spec 4.5: the column clauses in their stated fixed order: name, storage
type, NOT NULL iff not nullable, the rendered default iff one was found,
UNIQUE iff set, the CHECK clause iff non-none, then the foreign-key
clauses. -/
def specColumnClauses (column : ColumnConfig) : List String :=
  let meta := zodToSQLite column.schema
  [column.name, meta.SQLiteType.toSQL]
    ++ (if meta.nullable then [] else ["NOT NULL"])
    ++ (match meta.defaultValue with
        | some v => [formatDefaultValue v meta.SQLiteType]
        | none => [])
    ++ (if column.unique then ["UNIQUE"] else [])
    ++ (match formatCheckConstraint column.name column.schema with
        | some c => [c]
        | none => [])
    ++ (match column.references with
        | some r =>
          ["REFERENCES " ++ r.table ++ "(" ++ r.column ++ ")"]
            ++ (match r.onDelete with
                | some a => ["ON DELETE " ++ a.toSQL]
                | none => [])
            ++ (match r.onUpdate with
                | some a => ["ON UPDATE " ++ a.toSQL]
                | none => [])
        | none => [])

/-- The claimed index statement shape:
`CREATE [UNIQUE ]INDEX name ON table (c1, c2, …)[ WHERE predicate];`,
with the WHERE clause appended verbatim whenever a predicate is present. -/
def specIndexStatement (tableName : String) (index : IndexConfig) : String :=
  "CREATE " ++ (if index.unique then "UNIQUE " else "") ++ "INDEX "
    ++ index.name ++ " ON " ++ tableName
    ++ " (" ++ joinSep ", " index.columns ++ ")"
    ++ (match index.whereCond with
        | some p => " WHERE " ++ p
        | none => "")
    ++ ";"

/-- Spec 4.6: map the column compiler over the columns in declared order,
append `PRIMARY KEY (…)` only if `primaryKeys` is non-empty, and join the
fragments with `,\n  ` inside the `CREATE TABLE name (…);` envelope. -/
def specTableDDL (config : TableConfig) : String :=
  let fragments := config.columns.map buildColumnDefinition
    ++ (if config.primaryKeys.isEmpty then []
        else ["PRIMARY KEY (" ++ joinSep ", " config.primaryKeys ++ ")"])
  "CREATE TABLE " ++ config.name ++ " (\n  " ++ joinSep ",\n  " fragments ++ "\n);"

/-- Numeric CHECK rendering as C2 must be amended: every `greater_than`
bound renders `col >= v` and every `less_than` bound renders `col <= v`,
whether the bound is inclusive or exclusive, joined with AND in check
declaration order; no clause when no such bound exists. -/
def specNumericCheck (name : String) (checks : List ZodCheck) : Option String :=
  let fragments := checks.filterMap (fun c =>
    match c with
    | .greater_than v _ => some (name ++ " >= " ++ toString v)
    | .less_than v _ => some (name ++ " <= " ++ toString v)
    | _ => none)
  if fragments.isEmpty then none
  else some ("CHECK(" ++ joinSep " AND " fragments ++ ")")

/-! ### Concrete fixtures used by witnesses and counterexamples -/

/-- Scenario C's column: `withDefault(enum(['active','inactive']), 'active')`. -/
def statusColumn : ColumnConfig :=
  { name := "status"
    schema := .default (.enum ["active", "inactive"]) (.value (some (.str "active")))
    unique := false
    references := none }

/-- A table whose `primaryKeys` entry names no declared column. -/
def C1badConfig : TableConfig :=
  { name := "t"
    columns := [{ name := "id", schema := .number (some .int32) [], unique := false, references := none }]
    primaryKeys := ["missing"]
    indexes := none }

/-- An index whose `where` predicate is present but is the empty string. -/
def C7emptyWhereIndex : IndexConfig := ⟨"i", ["c"], false, some ""⟩

/-- Indexes with absent and with non-empty `where` predicates
(scenarios E and F). -/
def C7witnessIndexes : List IndexConfig :=
  [⟨"idx_e", ["email"], true, none⟩,
   ⟨"idx_active", ["status"], false, some "status = 'active'"⟩]

/-- A wrapper stack mixing all three wrapper kinds, with two `withDefault`
layers of which the innermost carries a producer. -/
def C5stack : List Wrapper :=
  [.optional, .withDefault (.value (some (.num 1))), .nullable,
   .withDefault (.producer (fun _ => some (.str "x")))]

/-- Two columns sharing the name `a` with different rules. -/
def C9colA : ColumnConfig := ⟨"a", .boolean, false, none⟩

/-- Second column named `a`, with a different rule than `C9colA`. -/
def C9colB : ColumnConfig := ⟨"a", .bigint, false, none⟩

/-- A small complete table configuration. -/
def C8config : TableConfig :=
  { name := "users"
    columns := [statusColumn]
    primaryKeys := ["status"]
    indexes := some [⟨"idx_status", ["status"], false, none⟩] }

/-! ### Observing one TableSpec over two compile calls

`zodToSQLite` invokes a caller-supplied default thunk afresh on every
compile call, so an impure thunk (such as the repository test fixture
`z.number().default(() => Date.now())`) may return different values on the
two calls.  In the embedding, one compile call of such a spec is a config
whose producer payloads are the pure functions describing what the thunks
returned on that call; two calls of the SAME TableSpec are therefore two
configs that agree everywhere except possibly in the functions stored
inside `producer` payloads.  `sameTableSpec` is that agreement. -/

/-- The stored payload data the two calls share: a plain value is the same
value at both calls (its `typeof` is not a function), while a producer is
the same thunk object whose returns are not compared. -/
def DefaultPayload.samePayloadKind : DefaultPayload → DefaultPayload → Bool
  | .value v, .value w => decide (v = w)
  | .producer _, .producer _ => true
  | _, _ => false

mutual

/-- Two rule trees are the same spec-level rule observed at two compile
calls: identical in every stored field, except that producer payload
functions are not compared. -/
def ZodType.sameRule : ZodType → ZodType → Bool
  | .optional a, .optional b => ZodType.sameRule a b
  | .nullable a, .nullable b => ZodType.sameRule a b
  | .default a p, .default b q => ZodType.sameRule a b && p.samePayloadKind q
  | .string f1 k1, .string f2 k2 => decide (f1 = f2) && decide (k1 = k2)
  | .number f1 k1, .number f2 k2 => decide (f1 = f2) && decide (k1 = k2)
  | .enum e1, .enum e2 => decide (e1 = e2)
  | .literal v1, .literal v2 => decide (v1 = v2)
  | .union o1, .union o2 => ZodType.sameRuleList o1 o2
  | .boolean, .boolean => true
  | .bigint, .bigint => true
  | .date, .date => true
  | .null, .null => true
  | .undefined, .undefined => true
  | .file, .file => true
  | .array, .array => true
  | .object, .object => true
  | .template_literal, .template_literal => true
  | .custom t1, .custom t2 => decide (t1 = t2)
  | _, _ => false

/-- Pointwise `sameRule` over union branch lists. -/
def ZodType.sameRuleList : List ZodType → List ZodType → Bool
  | [], [] => true
  | a :: as, b :: bs => ZodType.sameRule a b && ZodType.sameRuleList as bs
  | _, _ => false

end

/-- Two column configs describing the same column over two compile calls. -/
def sameColumn (a b : ColumnConfig) : Bool :=
  decide (a.name = b.name) && decide (a.unique = b.unique)
    && decide (a.references = b.references) && a.schema.sameRule b.schema

/-- Pointwise `sameColumn`. -/
def sameColumns : List ColumnConfig → List ColumnConfig → Bool
  | [], [] => true
  | a :: as, b :: bs => sameColumn a b && sameColumns as bs
  | _, _ => false

/-- Two table configs describing the same TableSpec over two compile
calls: equal in everything stored, except producer payload functions. -/
def sameTableSpec (c1 c2 : TableConfig) : Bool :=
  decide (c1.name = c2.name) && decide (c1.primaryKeys = c2.primaryKeys)
    && decide (c1.indexes = c2.indexes) && sameColumns c1.columns c2.columns

/-- The repository test fixture `z.number().default(() => Date.now())` as
observed on a first compile call, where the thunk returned 100. -/
def C8run1 : TableConfig :=
  { name := "events"
    columns := [{ name := "created_at"
                  schema := .default (.number none []) (.producer (fun _ => some (.num 100)))
                  unique := false
                  references := none }]
    primaryKeys := []
    indexes := none }

/-- The same TableSpec as `C8run1` observed on a second compile call,
where the impure thunk returned 200. -/
def C8run2 : TableConfig :=
  { name := "events"
    columns := [{ name := "created_at"
                  schema := .default (.number none []) (.producer (fun _ => some (.num 200)))
                  unique := false
                  references := none }]
    primaryKeys := []
    indexes := none }

/-! ### Helper lemmas -/

theorem joinSep_cons_cons (sep a b : String) (l : List String) :
    joinSep sep (a :: b :: l) = a ++ sep ++ joinSep sep (b :: l) := rfl

theorem ne_empty_of_length_pos {s : String} (h : 0 < s.length) : s ≠ "" := by
  intro he
  rw [he] at h
  simp [String.length] at h

theorem joinSep_space_ne_empty (a b : String) (l : List String) :
    joinSep " " (a :: b :: l) ≠ "" := by
  rw [joinSep_cons_cons]
  apply ne_empty_of_length_pos
  rw [String.length_append, String.length_append]
  have h1 : (" " : String).length = 1 := rfl
  omega

theorem buildColumnDefinition_shape (c : ColumnConfig) :
    ∃ l, buildColumnDefinition c
      = joinSep " " (c.name :: (zodToSQLite c.schema).SQLiteType.toSQL :: l) :=
  ⟨_, rfl⟩

theorem buildColumnDefinition_ne_empty (c : ColumnConfig) :
    buildColumnDefinition c ≠ "" := by
  obtain ⟨l, hl⟩ := buildColumnDefinition_shape c
  rw [hl]
  exact joinSep_space_ne_empty _ _ _

theorem buildPrimaryKeyConstraint_ne_empty {pks : List String} (h : pks ≠ []) :
    buildPrimaryKeyConstraint pks ≠ "" := by
  unfold buildPrimaryKeyConstraint
  rw [if_neg (by simpa [List.length_eq_zero] using h)]
  apply ne_empty_of_length_pos
  rw [String.length_append, String.length_append]
  have h1 : ("PRIMARY KEY (" : String).length = 13 := rfl
  omega

theorem buildPrimaryKeyConstraint_nil : buildPrimaryKeyConstraint [] = "" := rfl

/-- The table string of `createTable` is exactly the spec 4.6 assembly:
the `filter(Boolean)` in the source never removes a column fragment
(fragments are never empty) and removes the primary-key slot exactly when
`primaryKeys` is empty. -/
theorem createTable_table_spec (config : TableConfig) :
    (createTable config).table = specTableDDL config := by
  have h1 : (config.columns.map buildColumnDefinition).filter (fun s => s != "")
      = config.columns.map buildColumnDefinition := by
    apply List.filter_eq_self.mpr
    intro d hd
    obtain ⟨c, _, rfl⟩ := List.mem_map.mp hd
    simpa [bne_iff_ne] using buildColumnDefinition_ne_empty c
  have hfilter : (config.columns.map buildColumnDefinition
        ++ [buildPrimaryKeyConstraint config.primaryKeys]).filter (fun s => s != "")
      = config.columns.map buildColumnDefinition
        ++ (if config.primaryKeys.isEmpty then []
            else ["PRIMARY KEY (" ++ joinSep ", " config.primaryKeys ++ ")"]) := by
    rw [List.filter_append, h1]
    by_cases hp : config.primaryKeys = []
    · simp [hp, buildPrimaryKeyConstraint_nil]
    · have hclause : buildPrimaryKeyConstraint config.primaryKeys
          = "PRIMARY KEY (" ++ joinSep ", " config.primaryKeys ++ ")" := by
        unfold buildPrimaryKeyConstraint
        rw [if_neg (by simpa [List.length_eq_zero] using hp)]
      have hempty : config.primaryKeys.isEmpty = false := by
        simpa [List.isEmpty_iff] using hp
      rw [hclause, hempty]
      simp only [if_false, Bool.false_eq_true]
      have hne : ("PRIMARY KEY (" ++ joinSep ", " config.primaryKeys ++ ")") ≠ "" := by
        apply ne_empty_of_length_pos
        rw [String.length_append, String.length_append]
        have h13 : ("PRIMARY KEY (" : String).length = 13 := rfl
        omega
      simp [bne_iff_ne, hne]
  show "CREATE TABLE " ++ config.name ++ " (\n  "
      ++ joinSep ",\n  " ((config.columns.map buildColumnDefinition
        ++ [buildPrimaryKeyConstraint config.primaryKeys]).filter (fun s => s != ""))
      ++ "\n);"
    = specTableDDL config
  rw [hfilter]
  rfl

/-- Both unwrap loops peel the same wrapper layers: the core schema
`formatCheckConstraint` dispatches on is the one `zodToSQLite` reaches. -/
theorem stripWrappers_unwrapZod : ∀ (s : ZodType) (nb : Bool) (dv : Option JSValue),
    stripWrappers s = (unwrapZod s nb dv).1
  | .optional inner, _, dv => stripWrappers_unwrapZod inner true dv
  | .nullable inner, _, dv => stripWrappers_unwrapZod inner true dv
  | .default inner p, nb, _ => stripWrappers_unwrapZod inner nb p.eval
  | .string _ _, _, _ => rfl
  | .number _ _, _, _ => rfl
  | .enum _, _, _ => rfl
  | .literal _, _, _ => rfl
  | .union _, _, _ => rfl
  | .boolean, _, _ => rfl
  | .bigint, _, _ => rfl
  | .date, _, _ => rfl
  | .null, _, _ => rfl
  | .undefined, _, _ => rfl
  | .file, _, _ => rfl
  | .array, _, _ => rfl
  | .object, _, _ => rfl
  | .template_literal, _, _ => rfl
  | .custom _, _, _ => rfl

/-- The column compiler reads a column only through its name, unique flag,
foreign key, and its schema's unwrap result (leaf, nullability, evaluated
default): columns agreeing on those compile to the same fragment. -/
theorem buildColumnDefinition_congr (a b : ColumnConfig)
    (hn : a.name = b.name) (hu : a.unique = b.unique) (hr : a.references = b.references)
    (hw : unwrapZod a.schema false none = unwrapZod b.schema false none) :
    buildColumnDefinition a = buildColumnDefinition b := by
  have hz : zodToSQLite a.schema = zodToSQLite b.schema := by
    unfold zodToSQLite
    rw [hw]
  have hs : stripWrappers a.schema = stripWrappers b.schema := by
    rw [stripWrappers_unwrapZod a.schema false none, stripWrappers_unwrapZod b.schema false none,
      hw]
  have hc : formatCheckConstraint a.name a.schema = formatCheckConstraint b.name b.schema := by
    unfold formatCheckConstraint
    rw [hn, hs]
  unfold buildColumnDefinition
  rw [hc, hn, hu, hr, hz]

/-- Pointwise-congruent column lists map to identical fragment lists. -/
theorem map_buildColumnDefinition_congr {l1 l2 : List ColumnConfig}
    (h : List.Forall₂ (fun a b => a.name = b.name ∧ a.unique = b.unique
      ∧ a.references = b.references
      ∧ unwrapZod a.schema false none = unwrapZod b.schema false none) l1 l2) :
    l1.map buildColumnDefinition = l2.map buildColumnDefinition := by
  induction h with
  | nil => rfl
  | cons hab _ ih =>
    obtain ⟨hn, hu, hr, hw⟩ := hab
    simp [ih, buildColumnDefinition_congr _ _ hn hu hr hw]

/-- The unwrap loop on a wrapper stack, with arbitrary accumulator values:
it reaches the leaf, ors together the nullability bits, and keeps the last
`withDefault` payload it meets. -/
theorem unwrapZod_wrapZod (leaf : ZodType) (hleaf : leaf.isLeaf = true) :
    ∀ (ws : List Wrapper) (nb : Bool) (dv : Option JSValue),
    unwrapZod (wrapZod ws leaf) nb dv =
      (leaf, nb || ws.any Wrapper.isNullableLayer,
        match lastDefaultPayload ws with
        | some p => p.eval
        | none => dv) := by
  intro ws
  induction ws with
  | nil =>
    intro nb dv
    simp only [wrapZod, List.any_nil, Bool.or_false, lastDefaultPayload,
      List.filterMap_nil, List.getLast?_nil]
    cases leaf <;> first
      | rfl
      | simp [ZodType.isLeaf] at hleaf
  | cons w ws ih =>
    intro nb dv
    cases w with
    | optional =>
      simp only [wrapZod, unwrapZod, ih, lastDefaultPayload, List.filterMap_cons,
        Wrapper.payloadOf, List.any_cons, Wrapper.isNullableLayer]
      simp
    | nullable =>
      simp only [wrapZod, unwrapZod, ih, lastDefaultPayload, List.filterMap_cons,
        Wrapper.payloadOf, List.any_cons, Wrapper.isNullableLayer]
      simp
    | withDefault p =>
      simp only [wrapZod, unwrapZod, ih, lastDefaultPayload, List.filterMap_cons,
        Wrapper.payloadOf, List.any_cons, Wrapper.isNullableLayer, Bool.false_or]
      cases hf : ws.filterMap Wrapper.payloadOf with
      | nil => simp
      | cons q t =>
        cases hg : (q :: t).getLast? with
        | none => exact absurd (List.getLast?_eq_none_iff.mp hg) (by simp)
        | some x => simp [List.getLast?_cons_cons, hg]

/-- The loop invokes each producer payload on the stack exactly once. -/
theorem unwrapZodInvoked_wrapZod (leaf : ZodType) (hleaf : leaf.isLeaf = true) :
    ∀ ws : List Wrapper, unwrapZodInvoked (wrapZod ws leaf) = producerCount ws := by
  intro ws
  induction ws with
  | nil =>
    simp only [wrapZod, producerCount, List.countP_nil]
    cases leaf <;> first
      | rfl
      | simp [ZodType.isLeaf] at hleaf
  | cons w ws ih =>
    cases w with
    | optional => simpa [wrapZod, unwrapZodInvoked, producerCount, List.countP_cons] using ih
    | nullable => simpa [wrapZod, unwrapZodInvoked, producerCount, List.countP_cons] using ih
    | withDefault p =>
      cases p with
      | value v =>
        simpa [wrapZod, unwrapZodInvoked, producerCount, List.countP_cons] using ih
      | producer f =>
        simp only [wrapZod, unwrapZodInvoked, producerCount, List.countP_cons] at ih ⊢
        simp [ih, Nat.add_comm]

/-- Replacing an existing key leaves every entry's key unchanged. -/
theorem recordSet_replace_fst (k : String) (v : ZodType) (p : String × ZodType) :
    (if p.1 == k then (k, v) else p).1 = p.1 := by
  by_cases hp : p.1 = k
  · simp [hp]
  · simp [hp]

theorem recordGet_recordSet_self (m : List (String × ZodType)) (k : String) (v : ZodType) :
    recordGet (recordSet m k v) k = some v := by
  unfold recordSet recordGet
  by_cases h : m.any (fun p => p.1 == k)
  · rw [if_pos h]
    rw [List.find?_map]
    have hpred : ((fun p : String × ZodType => p.1 == k)
          ∘ (fun p : String × ZodType => if p.1 == k then (k, v) else p))
        = (fun p : String × ZodType => p.1 == k) := by
      funext p
      by_cases hp : p.1 = k <;> simp [Function.comp, hp]
    rw [hpred]
    have hsome : (m.find? (fun p => p.1 == k)).isSome := by
      rw [List.find?_isSome]
      rcases List.any_eq_true.mp h with ⟨p, hp, hk⟩
      exact ⟨p, hp, hk⟩
    cases hfind : m.find? (fun p => p.1 == k) with
    | none => rw [hfind] at hsome; simp at hsome
    | some p =>
      have hk : p.1 = k := by simpa using List.find?_some hfind
      simp [hk]
  · rw [if_neg h]
    have hnone : m.find? (fun p => p.1 == k) = none := by
      rw [List.find?_eq_none]
      intro p hp hk
      exact h (List.any_of_mem hp hk)
    rw [List.find?_append, hnone]
    simp [List.find?]

theorem recordGet_recordSet_ne (m : List (String × ZodType)) (k n : String) (v : ZodType)
    (h : n ≠ k) : recordGet (recordSet m k v) n = recordGet m n := by
  unfold recordSet recordGet
  by_cases hm : m.any (fun p => p.1 == k)
  · rw [if_pos hm]
    rw [List.find?_map]
    have hpred : ((fun p : String × ZodType => p.1 == n)
          ∘ (fun p : String × ZodType => if p.1 == k then (k, v) else p))
        = (fun p : String × ZodType => p.1 == n) := by
      funext p
      by_cases hp : p.1 = k <;> simp [Function.comp, hp]
    rw [hpred]
    cases hfind : m.find? (fun p => p.1 == n) with
    | none => simp
    | some p =>
      have hn : p.1 = n := by simpa using List.find?_some hfind
      have hpk : ¬(p.1 = k) := by rw [hn]; exact h
      simp [hpk]
  · rw [if_neg hm]
    rw [List.find?_append]
    have hkn : (k == n) = false := beq_eq_false_iff_ne.mpr (Ne.symm h)
    have hlast : List.find? (fun p => p.1 == n) [(k, v)] = none := by
      simp [List.find?, hkn]
    rw [hlast]
    cases hfind : m.find? (fun p => p.1 == n) with
    | some p => simp [Option.or]
    | none => simp [Option.or]

theorem recordGet_foldl_of_not_mem (n : String) :
    ∀ (cols : List ColumnConfig) (m : List (String × ZodType)),
    (∀ c ∈ cols, c.name ≠ n) →
    recordGet (cols.foldl (fun s c => recordSet s c.name c.schema) m) n = recordGet m n := by
  intro cols
  induction cols with
  | nil => intro m _; rfl
  | cons c t ih =>
    intro m h
    rw [List.foldl_cons, ih _ (fun d hd => h d (List.mem_cons_of_mem _ hd))]
    exact recordGet_recordSet_ne m c.name n c.schema
      (Ne.symm (h c (List.mem_cons_self c t)))


/-- The number-check fold in `formatCheckConstraint` collects, in check
order, one fragment per `greater_than`/`less_than` check. -/
theorem number_fold_filterMap (name : String) :
    ∀ (checks : List ZodCheck) (acc : List String),
    checks.foldl (fun acc c =>
      match c with
      | .greater_than v _ => acc ++ [name ++ " >= " ++ toString v]
      | .less_than v _ => acc ++ [name ++ " <= " ++ toString v]
      | _ => acc) acc
    = acc ++ checks.filterMap (fun c =>
      match c with
      | .greater_than v _ => some (name ++ " >= " ++ toString v)
      | .less_than v _ => some (name ++ " <= " ++ toString v)
      | _ => none) := by
  intro checks
  induction checks with
  | nil => intro acc; simp
  | cons c t ih =>
    intro acc
    cases c <;> simp [List.foldl_cons, List.filterMap_cons, ih]

/-! ### Claims -/

/-- C1, counterexample: with `primaryKeys := ["missing"]` over a single
column `id`, `createTable` raises no error at all: it returns a normal
result whose DDL simply embeds `PRIMARY KEY (missing)`, refuting the claim
that a primary-key/column mismatch is reported as a fatal configuration
error at compile time. -/
theorem C1_counterexample :
    "missing" ∈ C1badConfig.primaryKeys
    ∧ "missing" ∉ C1badConfig.columns.map ColumnConfig.name
    ∧ (createTable C1badConfig).table
        = "CREATE TABLE t (\n  id INTEGER NOT NULL,\n  PRIMARY KEY (missing)\n);"
    ∧ (createTable C1badConfig).indexes = [] := by
  decide

/-- C1, amended: when some `primaryKeys` entry names a column not present
in `columns`, `createTable` performs no validation and still returns the
normal `{table, indexes, schema}` result, with the unknown name rendered
verbatim inside the `PRIMARY KEY (…)` clause of the DDL (the mismatch is
excluded only by TypeScript's static type of `primaryKeys`). -/
theorem C1_theorem (config : TableConfig)
    (_h : ∃ k ∈ config.primaryKeys, k ∉ config.columns.map ColumnConfig.name) :
    (createTable config).table = specTableDDL config
    ∧ (createTable config).indexes = buildIndexStatements config.name config.indexes
    ∧ (createTable config).schema = buildZodSchema config.columns :=
  ⟨createTable_table_spec config, rfl, rfl⟩

/-- C1, witness: the amended statement at the concrete bad table. -/
theorem C1_witness :
    (∃ k ∈ C1badConfig.primaryKeys, k ∉ C1badConfig.columns.map ColumnConfig.name)
    ∧ ((createTable C1badConfig).table = specTableDDL C1badConfig
      ∧ (createTable C1badConfig).indexes = buildIndexStatements C1badConfig.name C1badConfig.indexes
      ∧ (createTable C1badConfig).schema = buildZodSchema C1badConfig.columns) :=
  ⟨by decide, C1_theorem C1badConfig (by decide)⟩

/-- C2, counterexample: an exclusive bound is rendered, with the inclusive
operator: `gt 5` (check `greater_than`, inclusive = false) yields
`CHECK(price >= 5)` instead of no fragment; and when the checks are
declared max-then-min the fragments keep that order instead of
min-then-max. -/
theorem C2_counterexample :
    formatCheckConstraint "price" (.number none [.greater_than 5 false])
      = some "CHECK(price >= 5)"
    ∧ formatCheckConstraint "n" (.number none [.less_than 9 true, .greater_than 2 true])
      = some "CHECK(n <= 9 AND n >= 2)" := by
  decide

/-- C2, amended: for a numeric core rule the extractor renders `col >= v`
for every `greater_than` bound and `col <= v` for every `less_than` bound,
inclusive and exclusive alike, joined with AND in check declaration order
(and no clause when no such bound exists); in particular for an inclusive
min followed by an inclusive max it produces the claimed
`CHECK(col >= min AND col <= max)`. -/
theorem C2_theorem (name : String) (fmt : Option NumberFormat) (checks : List ZodCheck) :
    formatCheckConstraint name (.number fmt checks) = specNumericCheck name checks
    ∧ ∀ lo hi : Int,
      formatCheckConstraint name (.number fmt [.greater_than lo true, .less_than hi true])
        = some ("CHECK(" ++ name ++ " >= " ++ toString lo ++ " AND "
            ++ name ++ " <= " ++ toString hi ++ ")") := by
  constructor
  · show (let constraints := List.foldl _ [] checks
      if constraints.length > 0 then
        some ("CHECK(" ++ joinSep " AND " constraints ++ ")")
      else none) = specNumericCheck name checks
    rw [number_fold_filterMap name checks []]
    unfold specNumericCheck
    cases hf : checks.filterMap (fun c =>
      match c with
      | .greater_than v _ => some (name ++ " >= " ++ toString v)
      | .less_than v _ => some (name ++ " <= " ++ toString v)
      | _ => none) with
    | nil => simp
    | cons x t => simp
  · intro lo hi
    show some ("CHECK(" ++ joinSep " AND "
        [name ++ " >= " ++ toString lo, name ++ " <= " ++ toString hi] ++ ")") = _
    simp [joinSep, String.append_assoc]

/-- C3: the claim (and the repository's own README: booleans are stored as
0/1, and the sibling revision of the formatter renders `DEFAULT 1/0`) says
BOOLEAN defaults render as 1 or 0, but `formatDefaultValue` has no BOOLEAN
arm, so the value falls to the quoting fallback: `true` renders as
`DEFAULT 'true'`.  The NULL half of the claim does hold: NULL storage
renders the unquoted literal `DEFAULT NULL`. -/
theorem C3_theorem :
    formatDefaultValue (.bool true) .BOOLEAN = "DEFAULT 'true'"
    ∧ formatDefaultValue (.bool false) .BOOLEAN = "DEFAULT 'false'"
    ∧ formatDefaultValue (.bool true) .BOOLEAN ≠ "DEFAULT 1"
    ∧ ∀ v, formatDefaultValue v .NULL = "DEFAULT NULL" := by
  refine ⟨by decide, by decide, by decide, fun v => rfl⟩

/-- C4, counterexample: a DATE default with an embedded quote is quoted
without doubling the quote (unlike TEXT), and a FLOAT default is quoted
rather than numerically coerced. -/
theorem C4_counterexample :
    formatDefaultValue (.str "O'Brien") .DATE = "DEFAULT 'O'Brien'"
    ∧ formatDefaultValue (.str "O'Brien") .DATE ≠ "DEFAULT 'O''Brien'"
    ∧ formatDefaultValue (.str "O'Brien") .TEXT = "DEFAULT 'O''Brien'"
    ∧ formatDefaultValue (.num 3) .FLOAT = "DEFAULT '3'"
    ∧ formatDefaultValue (.num 3) .FLOAT ≠ "DEFAULT 3" := by
  decide

/-- C4, amended: DATE, DATETIME and FLOAT storage types all take the
formatter's generic fallback: the string form of the value between single
quotes, with no doubling of embedded single quotes and no numeric
coercion. -/
theorem C4_theorem (v : JSValue) :
    formatDefaultValue v .DATE = "DEFAULT '" ++ jsString v ++ "'"
    ∧ formatDefaultValue v .DATETIME = "DEFAULT '" ++ jsString v ++ "'"
    ∧ formatDefaultValue v .FLOAT = "DEFAULT '" ++ jsString v ++ "'" :=
  ⟨rfl, rfl, rfl⟩

/-- C5: for every finite stack of wrapper layers around a leaf, the Rule
Unwrapper (a total, hence terminating, function) returns that leaf;
`nullable` is true exactly when some `optional` or `nullable` layer occurs
in the stack; `defaultValue` is the evaluated payload of the most recently
encountered (innermost) `withDefault` layer; and each producer payload on
the stack is invoked exactly once. -/
theorem C5_theorem (ws : List Wrapper) (leaf : ZodType) (hleaf : leaf.isLeaf = true) :
    unwrapZod (wrapZod ws leaf) false none
      = (leaf, ws.any Wrapper.isNullableLayer, (lastDefaultPayload ws).bind DefaultPayload.eval)
    ∧ (zodToSQLite (wrapZod ws leaf)).nullable = ws.any Wrapper.isNullableLayer
    ∧ (zodToSQLite (wrapZod ws leaf)).defaultValue
        = (lastDefaultPayload ws).bind DefaultPayload.eval
    ∧ (zodToSQLite (wrapZod ws leaf)).SQLiteType = mapZodTypeToSQLite leaf
    ∧ unwrapZodInvoked (wrapZod ws leaf) = producerCount ws := by
  have h := unwrapZod_wrapZod leaf hleaf ws false none
  have hb : (match lastDefaultPayload ws with
      | some p => p.eval
      | none => (none : Option JSValue)) = (lastDefaultPayload ws).bind DefaultPayload.eval := by
    cases lastDefaultPayload ws <;> rfl
  rw [Bool.false_or, hb] at h
  refine ⟨h, ?_, ?_, ?_, unwrapZodInvoked_wrapZod leaf hleaf ws⟩ <;>
    simp [zodToSQLite, h]

/-- C5, witness: a stack mixing all three wrapper kinds around a boolean
leaf, whose innermost `withDefault` payload is a producer. -/
theorem C5_witness :
    ZodType.isLeaf .boolean = true
    ∧ (unwrapZod (wrapZod C5stack .boolean) false none
        = (.boolean, C5stack.any Wrapper.isNullableLayer,
            (lastDefaultPayload C5stack).bind DefaultPayload.eval)
      ∧ (zodToSQLite (wrapZod C5stack .boolean)).nullable = C5stack.any Wrapper.isNullableLayer
      ∧ (zodToSQLite (wrapZod C5stack .boolean)).defaultValue
          = (lastDefaultPayload C5stack).bind DefaultPayload.eval
      ∧ (zodToSQLite (wrapZod C5stack .boolean)).SQLiteType = mapZodTypeToSQLite .boolean
      ∧ unwrapZodInvoked (wrapZod C5stack .boolean) = producerCount C5stack) :=
  ⟨rfl, C5_theorem C5stack .boolean rfl⟩

/-- C6: every column compiles to its clauses space-joined in the fixed
order name, storage type, NOT NULL, DEFAULT, UNIQUE, CHECK, then
REFERENCES/ON DELETE/ON UPDATE (each clause present under its stated
condition), and Scenario C's status column compiles to exactly the claimed
fragment. -/
theorem C6_theorem :
    (∀ column : ColumnConfig,
      buildColumnDefinition column = joinSep " " (specColumnClauses column))
    ∧ buildColumnDefinition statusColumn
        = "status TEXT NOT NULL DEFAULT 'active' CHECK(status IN ('active', 'inactive'))" := by
  refine ⟨fun column => ?_, by decide⟩
  unfold buildColumnDefinition specColumnClauses
  simp only [List.cons_append, List.nil_append]
  congr 1
  repeat' split
  all_goals simp_all [List.append_assoc]

/-- C7, counterexample: a present-but-empty `where` predicate is dropped
(the source tests `index.where` for truthiness), so the produced statement
is not the claimed `… (c1, …) WHERE predicate;` shape. -/
theorem C7_counterexample :
    buildIndexStatements "t" (some [C7emptyWhereIndex]) = ["CREATE INDEX i ON t (c);"]
    ∧ buildIndexStatements "t" (some [C7emptyWhereIndex])
        ≠ [specIndexStatement "t" C7emptyWhereIndex]
    ∧ specIndexStatement "t" C7emptyWhereIndex = "CREATE INDEX i ON t (c) WHERE ;" := by
  decide

/-- C7, amended: provided no index carries an empty-string `where`
predicate (such a predicate is treated as absent), the Index Compiler maps
each IndexSpec, in declared order, to exactly
`CREATE [UNIQUE ]INDEX name ON table (c1, c2, …)[ WHERE predicate];`, the
predicate appended verbatim and unescaped; an absent or empty index list
yields no statements. -/
theorem C7_theorem (tableName : String) (idxs : List IndexConfig)
    (h : ∀ i ∈ idxs, i.whereCond ≠ some "") :
    buildIndexStatements tableName (some idxs) = idxs.map (specIndexStatement tableName)
    ∧ buildIndexStatements tableName none = [] := by
  refine ⟨?_, rfl⟩
  simp only [buildIndexStatements]
  by_cases he : idxs.length = 0
  · rw [if_pos he, List.length_eq_zero.mp he]
    rfl
  · rw [if_neg he]
    apply List.map_congr_left
    intro i hi
    unfold specIndexStatement
    cases hw : i.whereCond with
    | none => rfl
    | some w =>
      have hne : w ≠ "" := by
        intro hempty
        exact h i hi (by rw [hw, hempty])
      simp only [hw, if_neg hne]

/-- C7, witness: the amended statement at scenarios E and F (a unique index
with no predicate, and a partial index with a non-empty predicate). -/
theorem C7_witness :
    (∀ i ∈ C7witnessIndexes, i.whereCond ≠ some "")
    ∧ (buildIndexStatements "users" (some C7witnessIndexes)
        = C7witnessIndexes.map (specIndexStatement "users")
      ∧ buildIndexStatements "users" none = []) :=
  ⟨by decide, C7_theorem "users" C7witnessIndexes (by decide)⟩

/-- C8, counterexample: `zodToSQLite` re-invokes caller default thunks on
every compile call, so compiling the same TableSpec twice is NOT always
byte-identical: the repository test fixture
`z.number().default(() => Date.now())`, whose impure thunk returns 100 on
the first call and 200 on the second (`C8run1`/`C8run2` are the two
observations of that one spec, `sameTableSpec` confirms they are the same
spec up to thunk returns), yields two different `ddl` strings. -/
theorem C8_counterexample :
    sameTableSpec C8run1 C8run2 = true
    ∧ (createTable C8run1).table
        = "CREATE TABLE events (\n  created_at REAL NOT NULL DEFAULT 100\n);"
    ∧ (createTable C8run2).table
        = "CREATE TABLE events (\n  created_at REAL NOT NULL DEFAULT 200\n);"
    ∧ (createTable C8run1).table ≠ (createTable C8run2).table := by
  exact ⟨rfl, by decide, by decide, by decide⟩

/-- C8, amended: compiling the same TableSpec twice yields byte-identical
`ddl` and index-statement lists provided every default thunk returns the
same value at both calls: for two observations of one spec (same name,
primary keys, indexes, and per column same name/unique/references and the
same unwrap result — leaf, nullability, and evaluated default), the two
compile calls' outputs are byte-identical.  In particular this holds
whenever no column uses an impure producer. -/
theorem C8_theorem (c1 c2 : TableConfig)
    (hname : c1.name = c2.name) (hpk : c1.primaryKeys = c2.primaryKeys)
    (hidx : c1.indexes = c2.indexes)
    (hcols : List.Forall₂ (fun a b => a.name = b.name ∧ a.unique = b.unique
      ∧ a.references = b.references
      ∧ unwrapZod a.schema false none = unwrapZod b.schema false none)
      c1.columns c2.columns) :
    (createTable c1).table = (createTable c2).table
    ∧ (createTable c1).indexes = (createTable c2).indexes := by
  have hmap : c1.columns.map buildColumnDefinition = c2.columns.map buildColumnDefinition :=
    map_buildColumnDefinition_congr hcols
  constructor
  · rw [createTable_table_spec c1, createTable_table_spec c2]
    unfold specTableDDL
    rw [hname, hpk, hmap]
  · show buildIndexStatements c1.name c1.indexes = buildIndexStatements c2.name c2.indexes
    rw [hname, hidx]

/-- C8, witness: the amended statement at a concrete table compiled at two
calls with identical thunk behaviour (here: none, a value default). -/
theorem C8_witness :
    (C8config.name = C8config.name
      ∧ C8config.primaryKeys = C8config.primaryKeys
      ∧ C8config.indexes = C8config.indexes
      ∧ List.Forall₂ (fun a b => a.name = b.name ∧ a.unique = b.unique
          ∧ a.references = b.references
          ∧ unwrapZod a.schema false none = unwrapZod b.schema false none)
          C8config.columns C8config.columns)
    ∧ ((createTable C8config).table = (createTable C8config).table
      ∧ (createTable C8config).indexes = (createTable C8config).indexes) := by
  have hcols : List.Forall₂ (fun a b => a.name = b.name ∧ a.unique = b.unique
      ∧ a.references = b.references
      ∧ unwrapZod a.schema false none = unwrapZod b.schema false none)
      C8config.columns C8config.columns :=
    List.Forall₂.cons ⟨rfl, rfl, rfl, rfl⟩ List.Forall₂.nil
  exact ⟨⟨rfl, rfl, rfl, hcols⟩, C8_theorem C8config C8config rfl rfl rfl hcols⟩

/-- C9: when two columns share a name (the second listed occurrence being
the last one with that name), the CREATE TABLE statement contains one
column-definition fragment per occurrence in declared order, while the
validator's row shape binds that name to the last occurrence's rule only —
so when the two rules differ, DDL and validator disagree on that column. -/
theorem C9_theorem (tn : String) (pks : List String) (idx : Option (List IndexConfig))
    (pre mid post : List ColumnConfig) (ci cj : ColumnConfig)
    (_hname : ci.name = cj.name)
    (hpost : ∀ c ∈ post, c.name ≠ cj.name) :
    recordGet (createTable ⟨tn, pre ++ ci :: mid ++ cj :: post, pks, idx⟩).schema cj.name = some cj.schema
    ∧ (pre ++ ci :: mid ++ cj :: post).map buildColumnDefinition
        = pre.map buildColumnDefinition
          ++ buildColumnDefinition ci :: mid.map buildColumnDefinition
          ++ buildColumnDefinition cj :: post.map buildColumnDefinition
    ∧ (createTable ⟨tn, pre ++ ci :: mid ++ cj :: post, pks, idx⟩).table
        = specTableDDL ⟨tn, pre ++ ci :: mid ++ cj :: post, pks, idx⟩
    ∧ (ci.schema ≠ cj.schema →
        recordGet (createTable ⟨tn, pre ++ ci :: mid ++ cj :: post, pks, idx⟩).schema
          cj.name ≠ some ci.schema) := by
  have hget : recordGet (buildZodSchema (pre ++ ci :: mid ++ cj :: post)) cj.name
      = some cj.schema := by
    unfold buildZodSchema
    have hsplit : pre ++ ci :: mid ++ cj :: post = (pre ++ ci :: mid) ++ cj :: post := by
      simp
    rw [hsplit, List.foldl_append, List.foldl_cons,
      recordGet_foldl_of_not_mem cj.name post _ hpost]
    exact recordGet_recordSet_self _ cj.name cj.schema
  refine ⟨hget, by simp, createTable_table_spec _, ?_⟩
  intro hne hcontra
  have hcontra2 : recordGet (buildZodSchema (pre ++ ci :: mid ++ cj :: post)) cj.name
      = some ci.schema := hcontra
  rw [hget] at hcontra2
  exact hne (Option.some.inj hcontra2).symm

/-- C9, witness: two columns both named `a`, one boolean and one bigint. -/
theorem C9_witness :
    C9colA.name = C9colB.name
    ∧ (∀ c ∈ ([] : List ColumnConfig), c.name ≠ C9colB.name)
    ∧ (recordGet (createTable ⟨"t", [] ++ C9colA :: [] ++ C9colB :: [], [], none⟩).schema
          C9colB.name = some C9colB.schema
      ∧ ([] ++ C9colA :: [] ++ C9colB :: []).map buildColumnDefinition
          = List.map buildColumnDefinition []
            ++ buildColumnDefinition C9colA :: List.map buildColumnDefinition []
            ++ buildColumnDefinition C9colB :: List.map buildColumnDefinition []
      ∧ (createTable ⟨"t", [] ++ C9colA :: [] ++ C9colB :: [], [], none⟩).table
          = specTableDDL ⟨"t", [] ++ C9colA :: [] ++ C9colB :: [], [], none⟩
      ∧ (C9colA.schema ≠ C9colB.schema →
          recordGet (createTable ⟨"t", [] ++ C9colA :: [] ++ C9colB :: [], [], none⟩).schema
            C9colB.name ≠ some C9colA.schema)) :=
  ⟨rfl, by simp, C9_theorem "t" [] none [] [] [] C9colA C9colB rfl (by simp)⟩

/-- C10: a `withDefault` wrapper whose payload is `undefined` (a value, or
a producer returning `undefined`) contributes no default: the extracted
`defaultValue` stays undefined (when no inner layer supplies one), and the
compiled column definition is identical to that of the same column without
the wrapper — in particular it contains no DEFAULT clause. -/
theorem C10_theorem (inner : ZodType) (p : DefaultPayload)
    (hp : p.eval = none) (hinner : (zodToSQLite inner).defaultValue = none) :
    (zodToSQLite (ZodType.default inner p)).defaultValue = none
    ∧ ∀ (name : String) (u : Bool) (r : Option ForeignKeyReference),
      buildColumnDefinition ⟨name, ZodType.default inner p, u, r⟩
        = buildColumnDefinition ⟨name, inner, u, r⟩ := by
  have hz : zodToSQLite (ZodType.default inner p) = zodToSQLite inner := by
    unfold zodToSQLite
    have hu : unwrapZod (ZodType.default inner p) false none = unwrapZod inner false none := by
      show unwrapZod inner false p.eval = unwrapZod inner false none
      rw [hp]
    rw [hu]
  constructor
  · rw [hz]
    exact hinner
  · intro name u r
    have hc : formatCheckConstraint name (ZodType.default inner p)
        = formatCheckConstraint name inner := rfl
    simp only [buildColumnDefinition, hz, hc]

/-- C10, witness: a producer payload returning undefined around a boolean
leaf. -/
theorem C10_witness :
    DefaultPayload.eval (.producer (fun _ => none)) = none
    ∧ (zodToSQLite .boolean).defaultValue = none
    ∧ ((zodToSQLite (ZodType.default .boolean (.producer (fun _ => none)))).defaultValue = none
      ∧ ∀ (name : String) (u : Bool) (r : Option ForeignKeyReference),
        buildColumnDefinition ⟨name, ZodType.default .boolean (.producer (fun _ => none)), u, r⟩
          = buildColumnDefinition ⟨name, .boolean, u, r⟩) :=
  ⟨rfl, rfl, C10_theorem .boolean (.producer (fun _ => none)) rfl rfl⟩

end ZodSqlite
